import Mathlib

/-!
Verification of the telemedicine priority-scoring core
(`src/ai-engine/model/predictor.py`, `src/ai-engine/model/trainer.py`,
`src/ai-engine/main.py`) against its natural-language specification.

The Python code is shallowly embedded: the opaque trained regression model
becomes an abstract function from feature vectors to rationals, numpy floats
become `ℚ`, Python ints become `ℤ`, raised exceptions become `Except.error`,
and the process-global predictor plus on-disk model store become explicit
state passed through the functions.
-/

namespace TelemedAI

/-- Translation of `np.clip(x, lo, hi)`, which numpy documents as equivalent
to `min(hi, max(lo, x))`. -/
def clip (x lo hi : ℚ) : ℚ := min hi (max lo x)

/-- The five-field patient descriptor (spec §3).  `age`, `severity` and the
two flags are Python ints; `waiting_time` is a float, embedded as `ℚ`. -/
structure FeatureVector where
  age : ℤ
  severity : ℤ
  rural : ℤ
  chronic : ℤ
  waiting_time : ℚ
deriving DecidableEq

/-- The opaque trained regression artifact: `model.predict` on the 5-feature
row, abstracted as an arbitrary function to a real-valued raw score. -/
abbrev Model := FeatureVector → ℚ

/-- The dictionary returned by `PriorityPredictor.predict`. -/
structure PredictionResult where
  priority_score : ℤ
  reason : String
deriving DecidableEq

/-- `PriorityPredictor.__init__` state: `self.model` and `self.is_loaded`. -/
structure PriorityPredictor where
  model : Option Model
  is_loaded : Bool

/-- `PriorityPredictor.RURAL_FAIRNESS_UPLIFT = 10`. -/
def RURAL_FAIRNESS_UPLIFT : ℚ := 10

/-- predictor.py lines 157-181: the `factors` list, built in source order
(severity bucket always first, then age bucket, rural, chronic, wait). -/
def genFactors (age severity rural chronic : ℤ) (waiting_time : ℚ) :
    List String :=
  (if severity ≥ 8 then ["High severity"]
   else if severity ≥ 5 then ["Moderate severity"]
   else ["Low severity"]) ++
  (if age ≥ 65 then ["elderly patient"]
   else if age ≥ 50 then ["middle-aged patient"]
   else []) ++
  (if rural = 1 then ["rural location (fairness uplift applied)"] else []) ++
  (if chronic = 1 then ["chronic illness"] else []) ++
  (if waiting_time ≥ 60 then ["long wait time"]
   else if waiting_time ≥ 30 then ["moderate wait time"]
   else [])

/-- predictor.py lines 184-189: priority level from the final clamped score. -/
def priorityLevel (score : ℤ) : String :=
  if score ≥ 80 then "HIGH PRIORITY"
  else if score ≥ 50 then "MEDIUM PRIORITY"
  else "LOW PRIORITY"

/-- predictor.py lines 191-197: join the factor list.  With more than one
factor, Python computes `", ".join(factors[:-1]) + ", and " + factors[-1]`. -/
def joinFactors (factors : List String) : String :=
  if factors.length > 1 then
    String.intercalate ", " factors.dropLast ++ ", and " ++ factors.getLastD ""
  else if factors.length == 1 then
    factors.headD ""
  else
    "standard case"

/-- `PriorityPredictor._generate_explanation`. -/
def generateExplanation (age severity rural chronic : ℤ) (waiting_time : ℚ)
    (score : ℤ) : String :=
  priorityLevel score ++ ": " ++
    joinFactors (genFactors age severity rural chronic waiting_time)

/-- predictor.py lines 111-116: the raw model output plus the rural fairness
uplift, i.e. the pre-clamp score. -/
def rawWithUplift (m : Model) (fv : FeatureVector) : ℚ :=
  if fv.rural = 1 then m fv + RURAL_FAIRNESS_UPLIFT else m fv

/-- predictor.py line 119: `int(np.clip(raw_score, 0, 100))`.  Python `int()`
truncates toward zero, which on the clipped (hence nonnegative) value
coincides with the floor. -/
def priorityScore (m : Model) (fv : FeatureVector) : ℤ :=
  ⌊clip (rawWithUplift m fv) 0 100⌋

/-- `PriorityPredictor.predict`: raises when no model is loaded (line 104),
otherwise evaluates the model, applies the uplift, clamps, and builds the
explanation.  The unreachable `is_loaded` = true with `model` = `none`
state surfaces the `AttributeError` Python would raise. -/
def PriorityPredictor.predict (p : PriorityPredictor) (fv : FeatureVector) :
    Except String PredictionResult :=
  if p.is_loaded = false then
    Except.error "Model not loaded"
  else
    match p.model with
    | none => Except.error "AttributeError"
    | some m =>
      let score := priorityScore m fv
      Except.ok
        ⟨score,
         generateExplanation fv.age fv.severity fv.rural fv.chronic
           fv.waiting_time score⟩

/-- The on-disk model store (path to saved artifact), abstracted. -/
abbrev FileSystem := String → Option Model

/-- `PriorityPredictor.save_model`: writes only when `self.model is not None`;
returns Python `None` (here `Unit`) in either case. -/
def save_model (p : PriorityPredictor) (model_path : String)
    (fs : FileSystem) : FileSystem × Unit :=
  match p.model with
  | some m => (fun q => if q = model_path then some m else fs q, ())
  | none => (fs, ())

/-- `PriorityPredictor.load_model`: the `joblib.load` outcome is abstracted as
an `Except` argument.  On success the model is replaced and `is_loaded` set;
on failure the handler sets `is_loaded := False` (leaving the stale `model`
attribute) and re-raises. -/
def load_model (p : PriorityPredictor) (outcome : Except String Model) :
    PriorityPredictor × Except String Unit :=
  match outcome with
  | Except.ok m => ({ model := some m, is_loaded := true }, Except.ok ())
  | Except.error e =>
      ({ model := p.model, is_loaded := false },
       Except.error ("Failed to load model: " ++ e))

/-- A FeatureVector paired with its ground-truth label. -/
abbrev TrainingExample := FeatureVector × ℚ

/-- trainer.py `compute_priority_score`, applied elementwise (the numpy code
is a vectorized version of this scalar computation; the per-sample Gaussian
noise draw is the `noise` argument). -/
def compute_priority_score (age severity rural chronic : ℤ)
    (waiting_time noise : ℚ) : ℚ :=
  let severity_score : ℚ := (severity : ℚ) / 10 * 40
  let age_score : ℚ :=
    if age ≥ 65 then 20 else if age ≥ 50 then 10 else (age : ℚ) / 10
  let chronic_score : ℚ := (chronic : ℚ) * 15
  let rural_score : ℚ := (rural : ℚ) * 15
  let waiting_score : ℚ := min (waiting_time / 60) 1 * 10
  let total_score : ℚ :=
    severity_score + age_score + chronic_score + rural_score + waiting_score
  clip (total_score + noise) 0 100

/-- The random draws consumed by `generate_training_data`, abstracted as
per-sample streams: raw normal/exponential draws before clipping, uniform
draws deciding the Bernoulli flags, and the per-sample label noise. -/
structure Draws where
  ageRaw : ℕ → ℚ
  sevRaw : ℕ → ℚ
  ruralU : ℕ → ℚ
  chronicU : ℕ → ℚ
  waitRaw : ℕ → ℚ
  noise : ℕ → ℚ

/-- trainer.py line 48: `np.clip(normal_draw, 0, 100).astype(int)`;
truncation on the clipped nonnegative value is the floor. -/
def genAge (d : Draws) (i : ℕ) : ℤ := ⌊clip (d.ageRaw i) 0 100⌋

/-- trainer.py line 51: `np.clip(exponential_draw + 1, 1, 10).astype(int)`. -/
def genSeverity (d : Draws) (i : ℕ) : ℤ := ⌊clip (d.sevRaw i + 1) 1 10⌋

/-- trainer.py line 54: `np.random.binomial(1, 0.3)`, as a uniform draw
compared against the success probability. -/
def genRural (d : Draws) (i : ℕ) : ℤ := if d.ruralU i < 3 / 10 then 1 else 0

/-- trainer.py lines 57-59: Bernoulli with probability
`np.clip(0.15 + (age / 100) * 0.3, 0, 0.8)`, using the generated age. -/
def genChronic (d : Draws) (i : ℕ) : ℤ :=
  if d.chronicU i < clip (15 / 100 + ((genAge d i : ℚ) / 100) * (3 / 10)) 0 (8 / 10)
  then 1 else 0

/-- trainer.py line 62: `np.clip(exponential_draw, 0, 120)` kept as float. -/
def genWait (d : Draws) (i : ℕ) : ℚ := clip (d.waitRaw i) 0 120

/-- Row `i` of the feature matrix `X` (trainer.py line 65). -/
def genFeature (d : Draws) (i : ℕ) : FeatureVector :=
  ⟨genAge d i, genSeverity d i, genRural d i, genChronic d i, genWait d i⟩

/-- Entry `i` of the label vector `y` (trainer.py line 69). -/
def genLabel (d : Draws) (i : ℕ) : ℚ :=
  compute_priority_score (genAge d i) (genSeverity d i) (genRural d i)
    (genChronic d i) (genWait d i) (d.noise i)

/-- `ndarray.min()`: fails on a zero-size array, as numpy does. -/
def listMin : List ℚ → Option ℚ
  | [] => none
  | x :: xs =>
    match listMin xs with
    | none => some x
    | some m => some (min x m)

/-- `ndarray.max()`: fails on a zero-size array, as numpy does. -/
def listMax : List ℚ → Option ℚ
  | [] => none
  | x :: xs =>
    match listMax xs with
    | none => some x
    | some m => some (max x m)

/-- trainer.py `generate_training_data`: builds the parallel feature/label
collections, then prints the diagnostic target range via `y.min()` and
`y.max()` — which raise on the empty array produced by `n_samples = 0`.
On success it returns `(X, y)` together with the reported range. -/
def generate_training_data (d : Draws) (n_samples : ℕ) :
    Except String (List FeatureVector × List ℚ × ℚ × ℚ) :=
  let X := (List.range n_samples).map (genFeature d)
  let y := (List.range n_samples).map (genLabel d)
  match listMin y, listMax y with
  | some lo, some hi => Except.ok (X, y, lo, hi)
  | _, _ =>
      Except.error
        "zero-size array to reduction operation minimum which has no identity"

/-- trainer.py `train_model`.  `train_test_split(test_size=0.2)` takes
`ceil(n / 5)` test rows and errors when the remaining train set is empty
(so for `n < 2`); the XGBoost fit itself is opaque and abstracted by the
`fit` argument.  On success the passed predictor's `model`/`is_loaded`
attributes are overwritten and the artifact saved to `model_path`. -/
def train_model (fit : List TrainingExample → Model) (_p : PriorityPredictor)
    (samples : List TrainingExample) (model_path : String) (fs : FileSystem) :
    Except String (PriorityPredictor × FileSystem) :=
  let nTest := (samples.length + 4) / 5
  let nTrain := samples.length - nTest
  if nTrain = 0 then
    Except.error
      "the resulting train set will be empty; adjust test_size or train_size"
  else
    let m := fit samples
    let p2 : PriorityPredictor := { model := some m, is_loaded := true }
    Except.ok (p2, (save_model p2 model_path fs).1)

/-- main.py `retrain_model` endpoint.  It unconditionally replaces the
process-global predictor with a fresh unloaded `PriorityPredictor()` before
generating data (here with `n_samples` abstracted) and training; any failure
is caught and converted into an HTTP 500 detail string, leaving whatever
predictor the try-block last assigned as the global one.  The previous
global predictor `prev` is never consulted again. -/
def retrain_model (fit : List TrainingExample → Model) (d : Draws)
    (n_samples : ℕ) (_prev : Option PriorityPredictor) (model_path : String)
    (fs : FileSystem) :
    Option PriorityPredictor × FileSystem × Except String String :=
  let fresh : PriorityPredictor := { model := none, is_loaded := false }
  match generate_training_data d n_samples with
  | Except.error e =>
      (some fresh, fs, Except.error ("Retraining failed: " ++ e))
  | Except.ok (X, y, _, _) =>
    match train_model fit fresh (List.zip X y) model_path fs with
    | Except.error e =>
        (some fresh, fs, Except.error ("Retraining failed: " ++ e))
    | Except.ok (p2, fs2) =>
        (some p2, fs2, Except.ok "Model retrained successfully")

/-! Concrete fixtures used to instantiate the theorems below. -/

/-- A constant regression model, oblivious to every feature. -/
def mConst : Model := fun _ => 42

/-- A regression model whose output depends on the rural input feature. -/
def mRuralSensitive : Model := fun fv => (fv.rural : ℚ) * 5

/-- A predictor holding a loaded model. -/
def p0 : PriorityPredictor := { model := some mConst, is_loaded := true }

/-- A freshly constructed predictor with nothing loaded. -/
def pUnloaded : PriorityPredictor := { model := none, is_loaded := false }

/-- A fitting procedure returning a fixed model, standing in for XGBoost. -/
def fit0 : List TrainingExample → Model := fun _ => mConst

/-- An empty on-disk store. -/
def fsEmpty : FileSystem := fun _ => none

/-- A deterministic stream of random draws. -/
def d0 : Draws :=
  { ageRaw := fun _ => 45, sevRaw := fun _ => 2, ruralU := fun _ => 1 / 2,
    chronicU := fun _ => 1 / 2, waitRaw := fun _ => 10, noise := fun _ => 0 }

/-- A single training example. -/
def ex0 : TrainingExample := (⟨30, 5, 0, 0, 10⟩, 50)

/-! Helper lemmas. -/

/-- The clipped value always lies in the clamp interval. -/
theorem clip_bounds (x : ℚ) : 0 ≤ clip x 0 100 ∧ clip x 0 100 ≤ 100 := by
  unfold clip
  exact ⟨le_min (by norm_num) (le_max_left 0 x), min_le_left _ _⟩

/-- Flooring a value clipped into `[0, 100]` stays in `[0, 100]`. -/
theorem floor_clip_bounds (x : ℚ) :
    0 ≤ ⌊clip x 0 100⌋ ∧ ⌊clip x 0 100⌋ ≤ 100 := by
  obtain ⟨h0, h1⟩ := clip_bounds x
  constructor
  · exact Int.le_floor.mpr (by exact_mod_cast h0)
  · calc ⌊clip x 0 100⌋ ≤ ⌊(100 : ℚ)⌋ := Int.floor_le_floor h1
      _ = 100 := by norm_num

/-- A nonempty list has a minimum. -/
theorem listMin_isSome (x : ℚ) (xs : List ℚ) : ∃ m, listMin (x :: xs) = some m := by
  cases h : listMin xs with
  | none => exact ⟨x, by simp [listMin, h]⟩
  | some v => exact ⟨min x v, by simp [listMin, h]⟩

/-- A nonempty list has a maximum. -/
theorem listMax_isSome (x : ℚ) (xs : List ℚ) : ∃ m, listMax (x :: xs) = some m := by
  cases h : listMax xs with
  | none => exact ⟨x, by simp [listMax, h]⟩
  | some v => exact ⟨max x v, by simp [listMax, h]⟩

/-- An unloaded predictor rejects every scoring request. -/
theorem predict_unloaded (p : PriorityPredictor) (fv : FeatureVector)
    (hl : p.is_loaded = false) :
    p.predict fv = Except.error "Model not loaded" := by
  unfold PriorityPredictor.predict
  rw [hl]
  simp

/-- The unreachable flagged-but-empty state also yields an error. -/
theorem predict_none (p : PriorityPredictor) (fv : FeatureVector)
    (hl : p.is_loaded = true) (hm : p.model = none) :
    p.predict fv = Except.error "AttributeError" := by
  unfold PriorityPredictor.predict
  rw [hl, hm]
  simp

/-- A loaded predictor returns the clamped score and its explanation. -/
theorem predict_loaded (p : PriorityPredictor) (m : Model) (fv : FeatureVector)
    (hl : p.is_loaded = true) (hm : p.model = some m) :
    p.predict fv =
      Except.ok
        ⟨priorityScore m fv,
         generateExplanation fv.age fv.severity fv.rural fv.chronic
           fv.waiting_time (priorityScore m fv)⟩ := by
  unfold PriorityPredictor.predict
  rw [hl, hm]
  simp

/-! Claim C1: rural fairness uplift on the pre-clamp score. -/

/-- C1 counterexample: the claim "for any two FeatureVectors identical except
for the rural flag, the rural=1 vector's pre-clamp score is exactly 10 higher"
fails for the model `mRuralSensitive`, because `rural` is itself one of the
five model inputs: at `⟨30, 5, rural, 0, 10⟩` the pre-clamp difference is
15 (5 from the model, 10 from the uplift), not 10. -/
theorem C1_fairness_counterexample :
    ¬ (rawWithUplift mRuralSensitive ⟨30, 5, 1, 0, 10⟩ =
        rawWithUplift mRuralSensitive ⟨30, 5, 0, 0, 10⟩ + 10) := by
  norm_num [rawWithUplift, mRuralSensitive, RURAL_FAIRNESS_UPLIFT]

/-- C1 (amended): if the Model's raw prediction takes the same value on the
two vectors — i.e. the learned regression output does not itself react to the
rural flag — then the rural=1 vector's pre-clamp score is exactly 10 higher
than the otherwise-identical rural=0 vector's. -/
theorem C1_fairness_uplift_amended (m : Model) (fv0 fv1 : FeatureVector)
    (h0 : fv0.rural = 0) (h1 : fv1 = { fv0 with rural := 1 })
    (hm : m fv1 = m fv0) :
    rawWithUplift m fv1 = rawWithUplift m fv0 + 10 := by
  subst h1
  simp [rawWithUplift, RURAL_FAIRNESS_UPLIFT, h0, hm]

/-- C1 witness: instantiation of the amended uplift theorem at the constant
model and a concrete pair of feature vectors. -/
theorem C1_fairness_uplift_witness :
    rawWithUplift mConst ⟨30, 5, 1, 0, 10⟩ =
      rawWithUplift mConst ⟨30, 5, 0, 0, 10⟩ + 10 :=
  C1_fairness_uplift_amended mConst ⟨30, 5, 0, 0, 10⟩ ⟨30, 5, 1, 0, 10⟩
    rfl rfl rfl

/-! Claim C2: the clamp invariant. -/

/-- C2: for every Model and FeatureVector the clamped integer score lies in
`[0, 100]`, both for the scoring pipeline `priorityScore` and for every
successful result of `PriorityPredictor.predict`. -/
theorem C2_clamp_invariant :
    (∀ (m : Model) (fv : FeatureVector),
      0 ≤ priorityScore m fv ∧ priorityScore m fv ≤ 100) ∧
    (∀ (p : PriorityPredictor) (fv : FeatureVector) (r : PredictionResult),
      p.predict fv = Except.ok r →
      0 ≤ r.priority_score ∧ r.priority_score ≤ 100) := by
  have key : ∀ (m : Model) (fv : FeatureVector),
      0 ≤ priorityScore m fv ∧ priorityScore m fv ≤ 100 := by
    intro m fv
    exact floor_clip_bounds (rawWithUplift m fv)
  refine ⟨key, ?_⟩
  intro p fv r h
  cases hl : p.is_loaded with
  | false => rw [predict_unloaded p fv hl] at h; exact absurd h (by simp)
  | true =>
    cases hm : p.model with
    | none => rw [predict_none p fv hl hm] at h; exact absurd h (by simp)
    | some m =>
      rw [predict_loaded p m fv hl hm, Except.ok.injEq] at h
      rw [← h]
      exact key m fv

/-- C2 witness: a concrete loaded predictor scores a concrete patient inside
the clamp interval. -/
theorem C2_clamp_invariant_witness :
    0 ≤ (PredictionResult.mk 42 "LOW PRIORITY: Moderate severity").priority_score ∧
    (PredictionResult.mk 42 "LOW PRIORITY: Moderate severity").priority_score ≤ 100 :=
  C2_clamp_invariant.2 p0 ⟨30, 5, 0, 0, 10⟩
    ⟨42, "LOW PRIORITY: Moderate severity"⟩ (by rfl)

/-! Claim C3: the factor-list join. -/

/-- C3 counterexample: with exactly two factors the code's join is NOT
"A and B".  At age 70 with severity 2 the factor list is
`["Low severity", "elderly patient"]`, and
`", ".join(factors[:-1]) + ", and " + factors[-1]` keeps the comma,
yielding "Low severity, and elderly patient". -/
theorem C3_join_counterexample :
    joinFactors (genFactors 70 2 0 0 5) = "Low severity, and elderly patient" ∧
    ¬ (joinFactors (genFactors 70 2 0 0 5) = "Low severity and elderly patient") := by
  constructor
  · rfl
  · decide

/-- C3 (amended): with one factor the join is just "A"; with exactly two
factors it is "A, and B" (the comma before "and" is kept, unlike the
two-item Oxford form "A and B"); with three or more factors it is the
Oxford-comma form "A, B, and C"; the empty list falls back to
"standard case". -/
theorem C3_join_amended :
    (∀ a : String, joinFactors [a] = a) ∧
    (∀ a b : String, joinFactors [a, b] = a ++ ", and " ++ b) ∧
    (∀ a b c : String, joinFactors [a, b, c] = a ++ ", " ++ b ++ ", and " ++ c) ∧
    joinFactors [] = "standard case" := by
  refine ⟨fun a => rfl, fun a b => ?_, fun a b c => ?_, rfl⟩
  · rfl
  · rfl

/-! Claim C4: the Data Synthesizer's success envelope. -/

/-- C4 counterexample: generation does NOT always succeed for
`n_samples ≥ 0`.  At `n_samples = 0` the feature and label collections are
empty, and reporting the diagnostic target range computes the minimum of a
zero-size array, which raises instead of returning empty output. -/
theorem C4_zero_samples_counterexample :
    generate_training_data d0 0 =
      Except.error
        "zero-size array to reduction operation minimum which has no identity" := by
  rfl

/-- C4 (amended): for every `n_samples ≥ 1` (and any random draws) generation
succeeds, returning parallel feature and label collections of exactly that
length together with the reported min/max label range; at `n_samples = 0` it
fails while reporting the range of the empty label collection. -/
theorem C4_generation_amended (d : Draws) (n : ℕ) (h : 0 < n) :
    ∃ X y lo hi,
      generate_training_data d n = Except.ok (X, y, lo, hi) ∧
      X.length = n ∧ y.length = n := by
  obtain ⟨k, rfl⟩ : ∃ k, n = k + 1 := ⟨n - 1, by omega⟩
  have hy : (List.range (k + 1)).map (genLabel d) =
      genLabel d 0 :: (List.map Nat.succ (List.range k)).map (genLabel d) := by
    rw [List.range_succ_eq_map, List.map_cons, List.map_map]
  obtain ⟨lo, hlo⟩ := listMin_isSome (genLabel d 0)
    ((List.map Nat.succ (List.range k)).map (genLabel d))
  obtain ⟨hi, hhi⟩ := listMax_isSome (genLabel d 0)
    ((List.map Nat.succ (List.range k)).map (genLabel d))
  refine ⟨(List.range (k + 1)).map (genFeature d),
    (List.range (k + 1)).map (genLabel d), lo, hi, ?_, by simp, by simp⟩
  simp only [generate_training_data, hy]
  rw [hlo, hhi]

/-- C4 witness: one sample is generated successfully from the concrete
draw stream. -/
theorem C4_generation_amended_witness :
    ∃ X y lo hi,
      generate_training_data d0 1 = Except.ok (X, y, lo, hi) ∧
      X.length = 1 ∧ y.length = 1 :=
  C4_generation_amended d0 1 (by decide)

/-! Claim C5: the ground-truth label formula. -/

/-- The label formula exactly as the spec words it, for comparison with the
source's `compute_priority_score`: (severity/10)*40, plus 20 if age ≥ 65,
10 if 50 ≤ age < 65 and age/10 otherwise, plus 15 if chronic is set, 15 if
rural is set, plus min(waiting_time/60, 1)*10; the noisy total is clamped
to [0, 100]. -/
def specGroundTruthLabel (age severity rural chronic : ℤ)
    (waiting_time noise : ℚ) : ℚ :=
  clip ((severity : ℚ) / 10 * 40
    + (if 65 ≤ age then (20 : ℚ)
       else if 50 ≤ age ∧ age < 65 then 10 else (age : ℚ) / 10)
    + (if chronic = 1 then (15 : ℚ) else 0)
    + (if rural = 1 then (15 : ℚ) else 0)
    + min (waiting_time / 60) 1 * 10
    + noise) 0 100

/-- C5: for binary rural/chronic flags the Synthesizer's label computation
agrees with the formula stated in the spec, and waiting times beyond the
60-minute cap add no further credit. -/
theorem C5_label_formula (age severity rural chronic : ℤ)
    (waiting_time noise : ℚ)
    (hr : rural = 0 ∨ rural = 1) (hc : chronic = 0 ∨ chronic = 1) :
    compute_priority_score age severity rural chronic waiting_time noise =
      specGroundTruthLabel age severity rural chronic waiting_time noise ∧
    (60 ≤ waiting_time →
      compute_priority_score age severity rural chronic waiting_time noise =
        compute_priority_score age severity rural chronic 60 noise) := by
  constructor
  · have hA : (if age ≥ 65 then (20 : ℚ) else if age ≥ 50 then 10 else (age : ℚ) / 10)
        = (if 65 ≤ age then (20 : ℚ)
           else if 50 ≤ age ∧ age < 65 then 10 else (age : ℚ) / 10) := by
      split_ifs with h1 h2 h3 h4 <;> first | rfl | (exfalso; omega)
    rcases hr with rfl | rfl <;> rcases hc with rfl | rfl <;>
      simp only [compute_priority_score, specGroundTruthLabel, hA] <;>
      norm_num
  · intro hw
    have h1 : min (waiting_time / 60) 1 = (1 : ℚ) :=
      min_eq_right ((one_le_div (by norm_num)).mpr hw)
    have h2 : min ((60 : ℚ) / 60) 1 = (1 : ℚ) := by norm_num
    simp only [compute_priority_score, h1, h2]

/-- C5 witness: concrete evaluation with the rural flag set, the chronic flag
clear, and a 90-minute wait. -/
theorem C5_label_formula_witness :
    compute_priority_score 70 8 1 0 90 2 = specGroundTruthLabel 70 8 1 0 90 2 ∧
    (60 ≤ (90 : ℚ) →
      compute_priority_score 70 8 1 0 90 2 = compute_priority_score 70 8 1 0 60 2) :=
  C5_label_formula 70 8 1 0 90 2 (Or.inr rfl) (Or.inl rfl)

/-! Claim C6: explanation thresholds, precedence and concrete strings. -/

/-- C6: for `{age=70, severity=9, rural=1, chronic=1, waiting_time=70}` every
bucket fires in the fixed precedence (severity, age, rural, chronic, wait)
and, whenever the clamped score reaches the HIGH PRIORITY band (≥ 80), the
reason is exactly the expected string; and for
`{age=25, severity=2, rural=0, chronic=0, waiting_time=5}` the joined factor
list is exactly "Low severity". -/
theorem C6_explanation_content :
    (∀ score : ℤ, 80 ≤ score →
      generateExplanation 70 9 1 1 70 score =
        "HIGH PRIORITY: High severity, elderly patient, rural location (fairness uplift applied), chronic illness, and long wait time") ∧
    joinFactors (genFactors 25 2 0 0 5) = "Low severity" := by
  constructor
  · intro score hs
    unfold generateExplanation priorityLevel
    rw [if_pos hs]
    rfl
  · rfl

/-- C6 witness: the HIGH PRIORITY explanation at the concrete score 85. -/
theorem C6_explanation_content_witness :
    generateExplanation 70 9 1 1 70 85 =
      "HIGH PRIORITY: High severity, elderly patient, rural location (fairness uplift applied), chronic illness, and long wait time" :=
  C6_explanation_content.1 85 (by decide)

/-! Claim C7: scoring without a loaded model. -/

/-- C7: with no Model loaded, `predict` fails with the "Model not loaded"
error — the caller receives no fallback score — while a predictor whose
model is loaded returns a successful result for every FeatureVector. -/
theorem C7_model_not_loaded :
    (∀ (p : PriorityPredictor) (fv : FeatureVector), p.is_loaded = false →
      p.predict fv = Except.error "Model not loaded") ∧
    (∀ (p : PriorityPredictor) (m : Model) (fv : FeatureVector),
      p.is_loaded = true → p.model = some m →
      p.predict fv =
        Except.ok
          ⟨priorityScore m fv,
           generateExplanation fv.age fv.severity fv.rural fv.chronic
             fv.waiting_time (priorityScore m fv)⟩) :=
  ⟨predict_unloaded, fun p m fv hl hm => predict_loaded p m fv hl hm⟩

/-- C7 witness: the fresh predictor rejects a concrete request and the loaded
one scores it. -/
theorem C7_model_not_loaded_witness :
    pUnloaded.predict ⟨30, 5, 0, 0, 10⟩ = Except.error "Model not loaded" ∧
    p0.predict ⟨30, 5, 0, 0, 10⟩ =
      Except.ok
        ⟨priorityScore mConst ⟨30, 5, 0, 0, 10⟩,
         generateExplanation 30 5 0 0 10 (priorityScore mConst ⟨30, 5, 0, 0, 10⟩)⟩ :=
  ⟨C7_model_not_loaded.1 pUnloaded ⟨30, 5, 0, 0, 10⟩ rfl,
   C7_model_not_loaded.2 p0 mConst ⟨30, 5, 0, 0, 10⟩ rfl rfl⟩

/-! Claim C8: atomicity of the model swap on training failure. -/

/-- C8: training on an empty sample collection does fail, but the retrain
endpoint is not atomic: it replaces the process-global predictor with a
fresh unloaded one BEFORE training, so when training (here: data generation
degenerating to zero samples) fails, the previously loaded model `p0` is no
longer active — the global predictor ends as `model = none`,
`is_loaded = false` alongside the surfaced error. -/
theorem C8_retrain_clears_model :
    (∃ e, train_model fit0 p0 [] "model.joblib" fsEmpty = Except.error e) ∧
    (retrain_model fit0 d0 0 (some p0) "model.joblib" fsEmpty).1 =
      some { model := none, is_loaded := false } ∧
    (∃ e, (retrain_model fit0 d0 0 (some p0) "model.joblib" fsEmpty).2.2 =
      Except.error e) :=
  ⟨⟨_, rfl⟩, rfl, ⟨_, rfl⟩⟩

/-! Claim C9: the two-state machine of the Scoring Engine. -/

/-- C9 counterexample: a Loaded engine CAN return to Unloaded without a
process restart — a failed `load_model` call sets `is_loaded` back to
false on the previously loaded predictor `p0`. -/
theorem C9_failed_load_counterexample :
    p0.is_loaded = true ∧
    (load_model p0 (Except.error "file not found")).1.is_loaded = false :=
  ⟨rfl, rfl⟩

/-- C9 (amended): a successful load or train always lands in Loaded, and a
successful retrain leaves the replacement engine Loaded; however a failed
`load_model` moves the engine to Unloaded (keeping only the stale model
attribute), and a failed retrain leaves the fresh replacement engine
Unloaded — so Loaded is not absorbing under failed loads or retrains. -/
theorem C9_state_machine_amended :
    (∀ (p : PriorityPredictor) (m : Model),
      (load_model p (Except.ok m)).1.is_loaded = true) ∧
    (∀ (p : PriorityPredictor) (e : String),
      (load_model p (Except.error e)).1.is_loaded = false ∧
      (load_model p (Except.error e)).1.model = p.model) ∧
    (∀ fit p samples model_path fs p2 fs2,
      train_model fit p samples model_path fs = Except.ok (p2, fs2) →
      p2.is_loaded = true) ∧
    (∀ fit d n prev model_path fs g2 fs2 msg,
      retrain_model fit d n prev model_path fs = (some g2, fs2, Except.ok msg) →
      g2.is_loaded = true) ∧
    (∀ fit d n prev model_path fs g2 fs2 e,
      retrain_model fit d n prev model_path fs = (some g2, fs2, Except.error e) →
      g2.is_loaded = false) := by
  refine ⟨fun p m => rfl, fun p e => ⟨rfl, rfl⟩, ?_, ?_, ?_⟩
  · intro fit p samples model_path fs p2 fs2 h
    simp only [train_model] at h
    split at h
    · exact absurd h (by simp)
    · rw [Except.ok.injEq, Prod.mk.injEq] at h
      rw [← h.1]
  · intro fit d n prev model_path fs g2 fs2 msg h
    simp only [retrain_model] at h
    split at h
    · rw [Prod.mk.injEq, Prod.mk.injEq] at h
      exact absurd h.2.2 (by simp)
    · split at h
      · rw [Prod.mk.injEq, Prod.mk.injEq] at h
        exact absurd h.2.2 (by simp)
      · rename_i p2 fs3 heq
        rw [Prod.mk.injEq, Prod.mk.injEq] at h
        have hp : some p2 = some g2 := h.1
        have : p2.is_loaded = true := by
          simp only [train_model] at heq
          split at heq
          · exact absurd heq (by simp)
          · rw [Except.ok.injEq, Prod.mk.injEq] at heq
            rw [← heq.1]
        rw [Option.some.injEq] at hp
        rw [← hp]
        exact this
  · intro fit d n prev model_path fs g2 fs2 e h
    simp only [retrain_model] at h
    split at h
    · rw [Prod.mk.injEq, Prod.mk.injEq] at h
      have hp : some _ = some g2 := h.1
      rw [Option.some.injEq] at hp
      rw [← hp]
    · split at h
      · rw [Prod.mk.injEq, Prod.mk.injEq] at h
        have hp : some _ = some g2 := h.1
        rw [Option.some.injEq] at hp
        rw [← hp]
      · rw [Prod.mk.injEq, Prod.mk.injEq] at h
        exact absurd h.2.2 (by simp)

/-- C9 witness: the amended transitions evaluated at concrete states — a
successful load of the fresh predictor, a failed load of the loaded one,
a successful two-sample training run, and a failed retrain. -/
theorem C9_state_machine_amended_witness :
    (load_model pUnloaded (Except.ok mConst)).1.is_loaded = true ∧
    ((load_model p0 (Except.error "file not found")).1.is_loaded = false ∧
      (load_model p0 (Except.error "file not found")).1.model = p0.model) ∧
    (PriorityPredictor.mk (some mConst) true).is_loaded = true ∧
    (PriorityPredictor.mk none false).is_loaded = false :=
  ⟨C9_state_machine_amended.1 pUnloaded mConst,
   C9_state_machine_amended.2.1 p0 "file not found",
   C9_state_machine_amended.2.2.1 fit0 pUnloaded [ex0, ex0] "model.joblib"
     fsEmpty (PriorityPredictor.mk (some mConst) true)
     (save_model (PriorityPredictor.mk (some mConst) true) "model.joblib" fsEmpty).1
     rfl,
   C9_state_machine_amended.2.2.2.2 fit0 d0 0 (some p0) "model.joblib" fsEmpty
     (PriorityPredictor.mk none false) fsEmpty
     "Retraining failed: zero-size array to reduction operation minimum which has no identity"
     rfl⟩

/-! Claim C10: save with no model is a silent no-op. -/

/-- C10: calling `save_model` on a predictor whose model is `None` raises
nothing, writes nothing to the store, and returns the same value (Python
`None`, here `Unit`) as a successful save, so the caller cannot tell the
two apart from the return value. -/
theorem C10_save_noop (p : PriorityPredictor) (model_path : String)
    (fs : FileSystem) (h : p.model = none) :
    (save_model p model_path fs).1 = fs ∧
    (save_model p model_path fs).2 = (save_model p0 "other" fs).2 := by
  unfold save_model
  rw [h]
  exact ⟨rfl, rfl⟩

/-- C10 witness: saving from the fresh (empty) predictor leaves the concrete
store untouched. -/
theorem C10_save_noop_witness :
    (save_model pUnloaded "model.joblib" fsEmpty).1 = fsEmpty ∧
    (save_model pUnloaded "model.joblib" fsEmpty).2 =
      (save_model p0 "other" fsEmpty).2 :=
  C10_save_noop pUnloaded "model.joblib" fsEmpty rfl

end TelemedAI
